import Mathlib

/-!
Verification of the swap module of the iexec-sdk client.

The development shallowly embeds `src/swap.js` and the helpers of
`utils.js` (`checkEvent`, `getEventFromLogs`, `bnToEthersBn`,
`ethersBnToBn`).  Big-number amounts are modelled as `Nat` (or `Int`
where a sign test occurs in the code); asynchronous external reads
(pool queries, balance reads, matchable-volume reads, transaction
receipts) are passed in as explicit parameters; a thrown JS error is
an `Except` error value.  Functions that may issue a pool query or
broadcast a transaction additionally return a `Bool` recording whether
that external call was reached.
-/

namespace IexecSwap

/-- The null Ethereum address constant of `utils.js`. -/
def NULL_ADDRESS : String := "0x0000000000000000000000000000000000000000"

/-- Connection context.  `isNative` marks a native-asset-only chain
configuration on which the Ether/RLC swap is structurally disabled. -/
structure Contracts where
  isNative : Bool
  deriving Repr, DecidableEq

/-- Errors thrown by the swap module.  Each constructor corresponds to a
distinct `throw` site in `swap.js` (or to a JS `TypeError` raised by a
property access on `undefined`). -/
inductive SwapError where
  /-- `Ether/RLC swap is not enabled on current chain` -/
  | swapDisabled
  /-- `amount must be greather than 0` -/
  | invalidAmount
  /-- a validation schema rejected an input -/
  | validationError
  /-- `Deposit amount exceed wallet balance` -/
  | depositExceedsBalance
  /-- `Withdraw amount exceed account balance` -/
  | withdrawExceedsBalance
  /-- `Deposit ether transaction failed (txHash: ...)` -/
  | depositFailed (txHash : String)
  /-- `Withdraw ether transaction failed (txHash: ...)` -/
  | withdrawFailed (txHash : String)
  /-- the error for a requested volume that cannot be executed -/
  | insufficientVolume
  /-- the error for a workerpool required stake above the owner account
  stake, carrying the required and the actual stake values -/
  | insufficientStake (required : Nat) (actual : Nat)
  /-- `OrdersMatched not confirmed` -/
  | matchNotConfirmed
  /-- a JS `TypeError` from reading a property of `undefined` -/
  | typeError
  /-- an error propagated from a helper, carrying its message -/
  | jsError (msg : String)
  deriving Repr, DecidableEq

/-- `checkSwapEnabled(contracts, strict)`: on a native chain it throws in
strict mode and returns `false` otherwise; on a non-native chain it
returns `true`. -/
def checkSwapEnabled (contracts : Contracts) (strict : Bool) : Except SwapError Bool :=
  if contracts.isNative then
    if strict then Except.error SwapError.swapDisabled
    else Except.ok false
  else Except.ok true

/-- `bnToEthersBn(bn) = ethers.utils.bigNumberify(bn.toString())`: the
value crosses into the ledger representation through its decimal string,
modelled as its base-10 digit list. -/
def bnToEthersBn (bn : Nat) : List Nat := Nat.digits 10 bn

/-- `ethersBnToBn(ethersBn) = new BN(ethersBn.toString())`: the decimal
digit list is parsed back into a big number. -/
def ethersBnToBn (ethersBn : List Nat) : Nat := Nat.ofDigits 10 ethersBn

/-- `estimateDepositRlcToReceive(contracts, weiToSpend)`.  The pool query
`iexecContract.estimateDepositEthSent` is the `Int → Int` parameter; the
returned `Bool` records whether that query was issued. -/
def estimateDepositRlcToReceive (contracts : Contracts)
    (estimateDepositEthSent : Int → Int) (weiToSpend : Int) :
    Except SwapError Int × Bool :=
  match checkSwapEnabled contracts true with
  | Except.error e => (Except.error e, false)
  | Except.ok _ =>
      if weiToSpend ≤ 0 then (Except.error SwapError.invalidAmount, false)
      else (Except.ok (estimateDepositEthSent weiToSpend), true)

/-- `estimateDepositEthToSpend(contracts, nRlcToReceive)`, querying
`iexecContract.estimateDepositTokenWanted`. -/
def estimateDepositEthToSpend (contracts : Contracts)
    (estimateDepositTokenWanted : Int → Int) (nRlcToReceive : Int) :
    Except SwapError Int × Bool :=
  match checkSwapEnabled contracts true with
  | Except.error e => (Except.error e, false)
  | Except.ok _ =>
      if nRlcToReceive ≤ 0 then (Except.error SwapError.invalidAmount, false)
      else (Except.ok (estimateDepositTokenWanted nRlcToReceive), true)

/-- `estimateWithdrawRlcToSpend(contracts, weiToReceive)`, querying
`iexecContract.estimateWithdrawEthWanted`. -/
def estimateWithdrawRlcToSpend (contracts : Contracts)
    (estimateWithdrawEthWanted : Int → Int) (weiToReceive : Int) :
    Except SwapError Int × Bool :=
  match checkSwapEnabled contracts true with
  | Except.error e => (Except.error e, false)
  | Except.ok _ =>
      if weiToReceive ≤ 0 then (Except.error SwapError.invalidAmount, false)
      else (Except.ok (estimateWithdrawEthWanted weiToReceive), true)

/-- `estimateWithdrawEthToReceive(contracts, nRlcToSpend)`, querying
`iexecContract.estimateWithdrawTokenSent`. -/
def estimateWithdrawEthToReceive (contracts : Contracts)
    (estimateWithdrawTokenSent : Int → Int) (nRlcToSpend : Int) :
    Except SwapError Int × Bool :=
  match checkSwapEnabled contracts true with
  | Except.error e => (Except.error e, false)
  | Except.ok _ =>
      if nRlcToSpend ≤ 0 then (Except.error SwapError.invalidAmount, false)
      else (Except.ok (estimateWithdrawTokenSent nRlcToSpend), true)

/-- Result of `estimateMatchOrderEthToSpend`. -/
structure EstimateMatchResult where
  weiToSpend : Int
  volume : Nat
  nRlcPrice : Nat
  deriving Repr, DecidableEq

/-- `estimateMatchOrderEthToSpend(contracts, orders...)`.  The matchable
volume returned by `orderModule.getMatchableVolume` and the three
per-unit order prices are passed in; the `Bool` records whether the
pool was queried (through `estimateDepositEthToSpend`). -/
def estimateMatchOrderEthToSpend (contracts : Contracts)
    (getMatchableVolume : Nat)
    (appprice datasetprice workerpoolprice : Nat)
    (estimateDepositTokenWanted : Int → Int) :
    Except SwapError EstimateMatchResult × Bool :=
  match checkSwapEnabled contracts true with
  | Except.error e => (Except.error e, false)
  | Except.ok _ =>
      let volume := getMatchableVolume
      let nRlcPrice := volume * (appprice + datasetprice + workerpoolprice)
      if nRlcPrice = 0 then
        (Except.ok ⟨(nRlcPrice : Int), volume, nRlcPrice⟩, false)
      else
        match estimateDepositEthToSpend contracts estimateDepositTokenWanted (nRlcPrice : Int) with
        | (Except.error e, q) => (Except.error e, q)
        | (Except.ok w, q) => (Except.ok ⟨w, volume, nRlcPrice⟩, q)

/-- Decoded `Transfer` arguments of a receipt log entry
(`event.args.from`, `event.args.to`, `event.args.value`). -/
structure TransferArgs where
  fromAddr : String
  toAddr : String
  value : Nat
  deriving Repr, DecidableEq

/-- Decoded fields of the pool `Swap` event.  `amount0Out` is optional:
the code tests it for JS truthiness, and a decoded BigNumber object is
truthy even when its value is zero, so only absence is falsy. -/
structure SwapEventValues where
  sender : String
  toAddr : String
  amount0In : Nat
  amount1In : Nat
  amount0Out : Option Nat
  amount1Out : Nat
  deriving Repr, DecidableEq

/-- A receipt log entry as seen by `depositEth` and `withdrawEth`:
`event.event` is the decoded event name (absent for foreign events),
`address` the emitting contract, `args` the decoded arguments, and
`swapLog` the outcome of `swapInterface.decodeEventLog("Swap", event.data)`
(`none` when decoding throws). -/
structure LogEvent where
  event : Option String
  address : String
  args : Option TransferArgs
  swapLog : Option SwapEventValues
  deriving Repr, DecidableEq

/-- Settlement outcome of `depositEth` and `withdrawEth`. -/
structure SettlementResult where
  txHash : String
  spentAmount : Nat
  receivedAmount : Nat
  deriving Repr, DecidableEq

/-- The mint-transfer predicate of `depositEth`: a `Transfer` event
emitted by the marketplace contract, with `args.from` the null address
and `args.to` the caller. -/
def isMintTransferEvent (iexecContractAddress userAddress : String) (e : LogEvent) : Bool :=
  e.event = some "Transfer" &&
    e.address = iexecContractAddress &&
    (match e.args with
     | some a => a.fromAddr = NULL_ADDRESS && a.toAddr = userAddress
     | none => false)

/-- `depositEth(contracts, weiToSpend, nRlcToReceive)`.  The wallet
balance read, the caller address, the marketplace contract address, the
transaction hash and the confirmed receipt events are explicit
parameters. -/
def depositEth (contracts : Contracts) (userAddress iexecContractAddress : String)
    (walletWei : Nat) (weiToSpend nRlcToReceive : Nat)
    (txHash : String) (events : List LogEvent) :
    Except SwapError SettlementResult :=
  match checkSwapEnabled contracts true with
  | Except.error e => Except.error e
  | Except.ok _ =>
      if walletWei < weiToSpend then Except.error SwapError.depositExceedsBalance
      else
        match events.find? (isMintTransferEvent iexecContractAddress userAddress) with
        | none => Except.error (SwapError.depositFailed txHash)
        | some ev =>
            match ev.args with
            | some a => Except.ok ⟨txHash, weiToSpend, a.value⟩
            | none => Except.error SwapError.typeError

/-- The credit-transfer predicate of `withdrawEth`: a `Transfer` event
emitted by the RLC token contract, with `args.from` the marketplace
contract and a truthy `args.to` (a non-empty string). -/
def isRlcTransferFromIExec (rlcContractAddress iexecContractAddress : String) (e : LogEvent) : Bool :=
  e.event = some "Transfer" &&
    e.address = rlcContractAddress &&
    (match e.args with
     | some a => a.fromAddr = iexecContractAddress && !(a.toAddr = "")
     | none => false)

/-- The `reduce` of `withdrawEth`: over the events emitted by the pool
contract, keep the values of the last one whose data decodes as a
`Swap` event (the accumulator starts at `null`). -/
def findSwapEventValues (swapContractAddress : String) (events : List LogEvent) :
    Option SwapEventValues :=
  (events.filter (fun e => e.address = swapContractAddress)).foldl
    (fun acc e =>
      match e.swapLog with
      | some v => some v
      | none => acc)
    none

/-- `withdrawEth(contracts, nRlcToSpend, weiToReceive)`.  The account
stake read, the marketplace and RLC contract addresses, the transaction
hash and the confirmed receipt events are explicit parameters.  When the
credit-transfer event is missing, the JS code dereferences
`undefined.args`, which is the `typeError` outcome. -/
def withdrawEth (contracts : Contracts) (iexecContractAddress rlcContractAddress : String)
    (accountStake : Nat) (nRlcToSpend weiToReceive : Nat)
    (txHash : String) (events : List LogEvent) :
    Except SwapError SettlementResult :=
  match checkSwapEnabled contracts true with
  | Except.error e => Except.error e
  | Except.ok _ =>
      if accountStake < nRlcToSpend then Except.error SwapError.withdrawExceedsBalance
      else
        match events.find? (isRlcTransferFromIExec rlcContractAddress iexecContractAddress) with
        | none => Except.error SwapError.typeError
        | some tev =>
            match tev.args with
            | none => Except.error SwapError.typeError
            | some targs =>
                match findSwapEventValues targs.toAddr events with
                | none => Except.error (SwapError.withdrawFailed txHash)
                | some v =>
                    match v.amount0Out with
                    | none => Except.error (SwapError.withdrawFailed txHash)
                    | some amount0Out => Except.ok ⟨txHash, nRlcToSpend, amount0Out⟩

/-- Decoded arguments of the `OrdersMatched` hub event. -/
structure HubEventArgs where
  dealid : String
  volume : Nat
  deriving Repr, DecidableEq

/-- A receipt log entry as seen by `checkEvent` and `getEventFromLogs`:
these helpers read the `_eventName` field. -/
structure HubEvent where
  eventName : Option String
  args : Option HubEventArgs
  deriving Repr, DecidableEq

/-- The accumulator domain of `getEventFromLogs`: the JS value held in
`eventFound` is either the initial empty object, a matched event
object, or (hypothetically) `undefined`. -/
inductive FoundVal where
  | undef
  | emptyObj
  | event (e : HubEvent)
  deriving Repr, DecidableEq

/-- JS truthiness on the accumulator domain: every object, the empty
object included, is truthy; only `undefined`/`null` is falsy. -/
def jsTruthy : FoundVal → Bool
  | FoundVal.undef => false
  | FoundVal.emptyObj => true
  | FoundVal.event _ => true

/-- `getEventFromLogs(eventName, events, { strict })` of `utils.js`:
fold over the events, keeping the last one whose `_eventName` matches;
the accumulator starts at the empty object `\x7b\x7d`; afterwards throw
when the accumulator is falsy and `strict` holds. -/
def getEventFromLogs (eventName : String) (events : List HubEvent) (strict : Bool) :
    Except String FoundVal :=
  let eventFound := events.foldl
    (fun acc e => if e.eventName = some eventName then FoundVal.event e else acc)
    FoundVal.emptyObj
  if !jsTruthy eventFound && strict then
    Except.error ("unknown event " ++ eventName)
  else
    Except.ok eventFound

/-- `checkEvent(eventName, events)` of `utils.js`: a flag set to `true`
by any event whose `_eventName` matches. -/
def checkEvent (eventName : String) (events : List HubEvent) : Bool :=
  events.foldl
    (fun confirm e => if e.eventName = some eventName then true else confirm)
    false

/-- Successful outcome of `matchOrdersWithEth`. -/
structure MatchResultOk where
  dealid : String
  volume : Nat
  txHash : String
  deriving Repr, DecidableEq

/-- `matchOrdersWithEth(contracts, orders..., weiToSpend,
minVolumeToExecute)`.  The workerpool unit price, the matchable volume
returned by `orderModule.getMatchableVolume`, the workerpool owner
stake read, the transaction hash and the confirmed receipt events are
explicit parameters.  The returned `Bool` records whether the match
transaction was broadcast (`wrapSend` reached).  `positiveStrictIntSchema`
rejects a zero requested volume. -/
def matchOrdersWithEth (contracts : Contracts)
    (workerpoolprice : Nat)
    (matchableVolume : Nat)
    (workerpoolOwnerStake : Nat)
    (weiToSpend : Nat) (minVolumeToExecute : Nat)
    (txHash : String) (events : List HubEvent) :
    Except SwapError MatchResultOk × Bool :=
  match checkSwapEnabled contracts true with
  | Except.error e => (Except.error e, false)
  | Except.ok _ =>
      if minVolumeToExecute = 0 then (Except.error SwapError.validationError, false)
      else
        let volumeToExecuteBN := minVolumeToExecute
        if matchableVolume < volumeToExecuteBN then
          (Except.error SwapError.insufficientVolume, false)
        else
          let requiredStake := volumeToExecuteBN * (workerpoolprice * 30 / 100)
          if workerpoolOwnerStake < requiredStake then
            (Except.error (SwapError.insufficientStake requiredStake workerpoolOwnerStake), false)
          else
            if checkEvent "OrdersMatched" events then
              match getEventFromLogs "OrdersMatched" events true with
              | Except.error msg => (Except.error (SwapError.jsError msg), true)
              | Except.ok (FoundVal.event e) =>
                  match e.args with
                  | some a => (Except.ok ⟨a.dealid, a.volume, txHash⟩, true)
                  | none => (Except.error SwapError.typeError, true)
              | Except.ok _ => (Except.error SwapError.typeError, true)
            else
              (Except.error SwapError.matchNotConfirmed, true)

/-- C8: converting an amount to the ledger big-integer representation
(through its decimal digit string) and back is the identity on every
non-negative amount. -/
theorem ethersBnToBn_bnToEthersBn (a : Nat) :
    ethersBnToBn (bnToEthersBn a) = a :=
  Nat.ofDigits_digits 10 a

theorem foldl_keepLastMatch (eventName : String) (events : List HubEvent) (acc : FoundVal) :
    events.foldl
        (fun a e => if e.eventName = some eventName then FoundVal.event e else a) acc
      = ((events.reverse.find? (fun e => e.eventName = some eventName)).map
          FoundVal.event).getD acc := by
  induction events generalizing acc with
  | nil => simp
  | cons x xs ih =>
      rw [List.foldl_cons, ih, List.reverse_cons, List.find?_append]
      cases hx : xs.reverse.find? (fun e => e.eventName = some eventName) with
      | some e => simp
      | none =>
          by_cases hpx : x.eventName = some eventName <;>
            simp [List.find?, hpx]

/-- C10: `getEventFromLogs` never throws, even in strict mode, because
its accumulator starts at the truthy empty object: it returns the empty
object when no event in the list carries the requested `_eventName`, and
the last matching event otherwise. -/
theorem getEventFromLogs_total (eventName : String) (events : List HubEvent) (strict : Bool) :
    getEventFromLogs eventName events strict
      = Except.ok
          (((events.reverse.find? (fun e => e.eventName = some eventName)).map
              FoundVal.event).getD FoundVal.emptyObj) := by
  unfold getEventFromLogs
  rw [foldl_keepLastMatch]
  cases hx : events.reverse.find? (fun e => e.eventName = some eventName) with
  | some e => simp [jsTruthy]
  | none => simp [jsTruthy]

/-- C9: on a native-asset-only configuration `checkSwapEnabled` throws
the swap-disabled error in strict mode and returns `false` in advisory
mode; on a swap-enabled configuration it returns `true` in both modes;
and every swap operation invoked on a native configuration fails with
the swap-disabled error before any further validation, query or
broadcast. -/
theorem checkSwapEnabled_gating :
    (∀ c : Contracts, c.isNative = true →
        checkSwapEnabled c true = Except.error SwapError.swapDisabled
      ∧ checkSwapEnabled c false = Except.ok false)
  ∧ (∀ c : Contracts, c.isNative = false →
        ∀ strict : Bool, checkSwapEnabled c strict = Except.ok true)
  ∧ (∀ c : Contracts, c.isNative = true →
      (∀ (f : Int → Int) (x : Int),
          estimateDepositRlcToReceive c f x = (Except.error SwapError.swapDisabled, false)
        ∧ estimateDepositEthToSpend c f x = (Except.error SwapError.swapDisabled, false)
        ∧ estimateWithdrawRlcToSpend c f x = (Except.error SwapError.swapDisabled, false)
        ∧ estimateWithdrawEthToReceive c f x = (Except.error SwapError.swapDisabled, false))
      ∧ (∀ (vol a d w : Nat) (f : Int → Int),
          estimateMatchOrderEthToSpend c vol a d w f
            = (Except.error SwapError.swapDisabled, false))
      ∧ (∀ (user ia : String) (wal spend recv : Nat) (tx : String) (evs : List LogEvent),
          depositEth c user ia wal spend recv tx evs
            = Except.error SwapError.swapDisabled)
      ∧ (∀ (ia ra : String) (stk spend recv : Nat) (tx : String) (evs : List LogEvent),
          withdrawEth c ia ra stk spend recv tx evs
            = Except.error SwapError.swapDisabled)
      ∧ (∀ (p mvol stk wei minv : Nat) (tx : String) (evs : List HubEvent),
          matchOrdersWithEth c p mvol stk wei minv tx evs
            = (Except.error SwapError.swapDisabled, false))) := by
  refine ⟨fun c hc => ?_, fun c hc strict => ?_, fun c hc => ?_⟩
  · constructor <;> simp [checkSwapEnabled, hc]
  · simp [checkSwapEnabled, hc]
  · refine ⟨fun f x => ?_, fun vol a d w f => ?_, fun user ia wal spend recv tx evs => ?_,
      fun ia ra stk spend recv tx evs => ?_, fun p mvol stk wei minv tx evs => ?_⟩
    · refine ⟨?_, ?_, ?_, ?_⟩ <;>
        simp [estimateDepositRlcToReceive, estimateDepositEthToSpend,
          estimateWithdrawRlcToSpend, estimateWithdrawEthToReceive,
          checkSwapEnabled, hc]
    · simp [estimateMatchOrderEthToSpend, checkSwapEnabled, hc]
    · simp [depositEth, checkSwapEnabled, hc]
    · simp [withdrawEth, checkSwapEnabled, hc]
    · simp [matchOrdersWithEth, checkSwapEnabled, hc]

/-- Witness for C9 at concrete configurations: a native configuration in
both modes, a swap-enabled configuration, and one operation of each
shape on a native configuration. -/
theorem checkSwapEnabled_gating_witness :
    (checkSwapEnabled ⟨true⟩ true = Except.error SwapError.swapDisabled
      ∧ checkSwapEnabled ⟨true⟩ false = Except.ok false)
  ∧ checkSwapEnabled ⟨false⟩ true = Except.ok true
  ∧ estimateDepositRlcToReceive ⟨true⟩ (fun x => x) 7
      = (Except.error SwapError.swapDisabled, false)
  ∧ depositEth ⟨true⟩ "0xU" "0xI" 9 7 4 "0xT" [] = Except.error SwapError.swapDisabled
  ∧ matchOrdersWithEth ⟨true⟩ 5 3 3 0 3 "0xT" []
      = (Except.error SwapError.swapDisabled, false) :=
  ⟨checkSwapEnabled_gating.1 ⟨true⟩ rfl,
   checkSwapEnabled_gating.2.1 ⟨false⟩ rfl true,
   (checkSwapEnabled_gating.2.2 ⟨true⟩ rfl).1 (fun x => x) 7 |>.1,
   (checkSwapEnabled_gating.2.2 ⟨true⟩ rfl).2.2.1 "0xU" "0xI" 9 7 4 "0xT" [],
   (checkSwapEnabled_gating.2.2 ⟨true⟩ rfl).2.2.2.2 5 3 3 0 3 "0xT" []⟩

/-- C5: on a swap-enabled configuration, each of the four swap-rate
estimator entry points fails with the invalid-amount error for every
input amount less than or equal to zero, and no pool query is issued. -/
theorem estimators_reject_nonpositive (c : Contracts) (hc : c.isNative = false)
    (f : Int → Int) (amount : Int) (h : amount ≤ 0) :
    estimateDepositRlcToReceive c f amount = (Except.error SwapError.invalidAmount, false)
  ∧ estimateDepositEthToSpend c f amount = (Except.error SwapError.invalidAmount, false)
  ∧ estimateWithdrawRlcToSpend c f amount = (Except.error SwapError.invalidAmount, false)
  ∧ estimateWithdrawEthToReceive c f amount = (Except.error SwapError.invalidAmount, false) := by
  refine ⟨?_, ?_, ?_, ?_⟩ <;>
    simp [estimateDepositRlcToReceive, estimateDepositEthToSpend,
      estimateWithdrawRlcToSpend, estimateWithdrawEthToReceive,
      checkSwapEnabled, hc, h]

/-- Witness for C5 at amount zero and at a negative amount on a
swap-enabled configuration. -/
theorem estimators_reject_nonpositive_witness :
    estimateDepositRlcToReceive ⟨false⟩ (fun x => x) 0
      = (Except.error SwapError.invalidAmount, false)
  ∧ estimateWithdrawEthToReceive ⟨false⟩ (fun x => x) (-3)
      = (Except.error SwapError.invalidAmount, false) :=
  ⟨(estimators_reject_nonpositive ⟨false⟩ rfl (fun x => x) 0 (by decide)).1,
   (estimators_reject_nonpositive ⟨false⟩ rfl (fun x => x) (-3) (by decide)).2.2.2⟩

/-- C6: on a swap-enabled configuration `estimateMatchOrderEthToSpend`
computes the total credit price as the matchable volume times the sum
of the app, dataset and workerpool unit prices; when that price is zero
it returns zero native cost without querying the pool, and when it is
positive it prices it through the deposit-direction estimator (one pool
query). -/
theorem estimateMatchOrderEthToSpend_spec (c : Contracts) (hc : c.isNative = false)
    (vol a d w : Nat) (f : Int → Int) :
    (vol * (a + d + w) = 0 →
        estimateMatchOrderEthToSpend c vol a d w f
          = (Except.ok ⟨0, vol, vol * (a + d + w)⟩, false))
  ∧ (0 < vol * (a + d + w) →
        estimateMatchOrderEthToSpend c vol a d w f
          = (Except.ok ⟨f (vol * (a + d + w) : Nat), vol, vol * (a + d + w)⟩, true)) := by
  constructor
  · intro h
    simp [estimateMatchOrderEthToSpend, checkSwapEnabled, hc, h]
  · intro h
    have hne : vol * (a + d + w) ≠ 0 := Nat.pos_iff_ne_zero.mp h
    have hint : ¬ ((vol * (a + d + w) : Int) ≤ 0) := by
      simp only [not_le]
      exact_mod_cast h
    simp [estimateMatchOrderEthToSpend, estimateDepositEthToSpend,
      checkSwapEnabled, hc, hne, hint]

/-- Witness for C6: a zero-price match (volume 2, all prices zero)
returns zero cost with no pool query, and a priced match (volume 2,
summed price 3) routes through the pool estimator. -/
theorem estimateMatchOrderEthToSpend_spec_witness :
    estimateMatchOrderEthToSpend ⟨false⟩ 2 0 0 0 (fun x => 2 * x)
      = (Except.ok ⟨0, 2, 0⟩, false)
  ∧ estimateMatchOrderEthToSpend ⟨false⟩ 2 1 0 2 (fun x => 2 * x)
      = (Except.ok ⟨12, 2, 6⟩, true) :=
  ⟨(estimateMatchOrderEthToSpend_spec ⟨false⟩ rfl 2 0 0 0 (fun x => 2 * x)).1 (by decide),
   (estimateMatchOrderEthToSpend_spec ⟨false⟩ rfl 2 1 0 2 (fun x => 2 * x)).2 (by decide)⟩

/-- C4: on a swap-enabled configuration, whenever the requested minimum
volume strictly exceeds the matchable volume, `matchOrdersWithEth`
fails with the insufficient-volume error and no transaction is
broadcast. -/
theorem matchOrdersWithEth_insufficientVolume (c : Contracts) (hc : c.isNative = false)
    (price mvol stk wei minv : Nat) (tx : String) (events : List HubEvent)
    (hlt : mvol < minv) :
    matchOrdersWithEth c price mvol stk wei minv tx events
      = (Except.error SwapError.insufficientVolume, false) := by
  have hne : minv ≠ 0 := by omega
  simp [matchOrdersWithEth, checkSwapEnabled, hc, hne, hlt]

/-- Witness for C4 at the scenario of the specification: requesting a
minimum volume of 5 when the matchable volume is 3. -/
theorem matchOrdersWithEth_insufficientVolume_witness :
    matchOrdersWithEth ⟨false⟩ 5 3 100 0 5 "0xT" []
      = (Except.error SwapError.insufficientVolume, false) :=
  matchOrdersWithEth_insufficientVolume ⟨false⟩ rfl 5 3 100 0 5 "0xT" [] (by decide)

/-- C1 counterexample: at volume 3 and workerpool unit price 5, the
claimed formula floor(volume * price * 30 / 100) gives 4, yet a stake
of 3 passes the stake check of `matchOrdersWithEth` and the match
transaction is broadcast (the run then fails only on the absent
`OrdersMatched` event): the code uses volume * floor(price * 30 / 100)
= 3, dividing before the multiplication by the volume. -/
theorem requiredStake_counterexample :
    matchOrdersWithEth ⟨false⟩ 5 3 3 0 3 "0xT" []
      = (Except.error SwapError.matchNotConfirmed, true)
  ∧ 3 < 3 * 5 * 30 / 100 := by
  constructor
  · rfl
  · decide

/-- C1 amended: in the stake check of `matchOrdersWithEth` (on a
swap-enabled configuration, with the requested volume positive and
matchable), the required stake is volume * floor(price * 30 / 100),
the truncating division being applied to price * 30 before the
multiplication by the volume: a stake below that bound fails with the
insufficient-stake error before any broadcast, and a stake reaching it
passes the check and the transaction is broadcast. -/
theorem requiredStake_spec (c : Contracts) (hc : c.isNative = false)
    (price mvol stk wei minv : Nat) (tx : String) (events : List HubEvent)
    (h1 : 1 ≤ minv) (h2 : minv ≤ mvol) :
    (stk < minv * (price * 30 / 100) →
        matchOrdersWithEth c price mvol stk wei minv tx events
          = (Except.error
              (SwapError.insufficientStake (minv * (price * 30 / 100)) stk), false))
  ∧ (minv * (price * 30 / 100) ≤ stk →
        (matchOrdersWithEth c price mvol stk wei minv tx events).2 = true) := by
  have hne : minv ≠ 0 := by omega
  have hnlt : ¬ (mvol < minv) := by omega
  constructor
  · intro hstk
    simp [matchOrdersWithEth, checkSwapEnabled, hc, hne, hnlt, hstk]
  · intro hstk
    have hnstk : ¬ (stk < minv * (price * 30 / 100)) := by omega
    simp only [matchOrdersWithEth, checkSwapEnabled, hc]
    simp only [Bool.false_eq_true, if_false, hne, if_neg, hnlt, hnstk]
    repeat' split
    all_goals rfl

/-- Witness for the amended C1: with unit price 7 and requested volume
3 the required stake is 3 * floor(210/100) = 6; a stake of 5 fails with
the insufficient-stake error carrying 6 and 5 and nothing is broadcast,
while a stake of 6 lets the transaction be broadcast. -/
theorem requiredStake_spec_witness :
    matchOrdersWithEth ⟨false⟩ 7 3 5 0 3 "0xT" []
      = (Except.error (SwapError.insufficientStake 6 5), false)
  ∧ (matchOrdersWithEth ⟨false⟩ 7 3 6 0 3 "0xT" []).2 = true :=
  ⟨(requiredStake_spec ⟨false⟩ rfl 7 3 5 0 3 "0xT" [] (by decide) (by decide)).1 (by decide),
   (requiredStake_spec ⟨false⟩ rfl 7 3 6 0 3 "0xT" [] (by decide) (by decide)).2 (by decide)⟩

/-- C7: in the stake check of `matchOrdersWithEth` (on a swap-enabled
configuration, with the requested volume positive and matchable), a
workerpool owner stake exactly equal to the required stake passes the
check — the transaction is broadcast and no insufficient-stake error
can be the outcome — while a stake one unit below it fails with the
insufficient-stake error carrying both the required and the actual
stake values, before any broadcast. -/
theorem stakeCheck_boundary (c : Contracts) (hc : c.isNative = false)
    (price mvol wei minv : Nat) (tx : String) (events : List HubEvent)
    (h1 : 1 ≤ minv) (h2 : minv ≤ mvol) :
    ((matchOrdersWithEth c price mvol (minv * (price * 30 / 100)) wei minv tx events).2 = true
      ∧ ∀ r a : Nat,
          (matchOrdersWithEth c price mvol (minv * (price * 30 / 100)) wei minv tx events).1
            ≠ Except.error (SwapError.insufficientStake r a))
  ∧ (∀ s : Nat, s + 1 = minv * (price * 30 / 100) →
        matchOrdersWithEth c price mvol s wei minv tx events
          = (Except.error
              (SwapError.insufficientStake (minv * (price * 30 / 100)) s), false)) := by
  have hne : minv ≠ 0 := by omega
  have hnlt : ¬ (mvol < minv) := by omega
  have hnstk : ¬ (minv * (price * 30 / 100) < minv * (price * 30 / 100)) := by omega
  refine ⟨⟨?_, ?_⟩, ?_⟩
  · simp only [matchOrdersWithEth, checkSwapEnabled, hc]
    simp only [Bool.false_eq_true, if_false, hne, if_neg, hnlt, hnstk]
    repeat' split
    all_goals rfl
  · intro r a
    simp only [matchOrdersWithEth, checkSwapEnabled, hc]
    simp only [Bool.false_eq_true, if_false, hne, if_neg, hnlt, hnstk]
    repeat' split
    all_goals simp
  · intro s hs
    have hstk : s < minv * (price * 30 / 100) := by omega
    simp [matchOrdersWithEth, checkSwapEnabled, hc, hne, hnlt, hstk]

/-- Witness for C7: with unit price 10 and requested volume 2 the
required stake is 2 * floor(300/100) = 6; a stake of exactly 6 passes
the check and the transaction is broadcast, while a stake of 5 fails
with the insufficient-stake error carrying 6 and 5, with no
broadcast. -/
theorem stakeCheck_boundary_witness :
    (matchOrdersWithEth ⟨false⟩ 10 2 6 0 2 "0xT" []).2 = true
  ∧ matchOrdersWithEth ⟨false⟩ 10 2 5 0 2 "0xT" []
      = (Except.error (SwapError.insufficientStake 6 5), false) :=
  ⟨(stakeCheck_boundary ⟨false⟩ rfl 10 2 0 2 "0xT" [] (by decide) (by decide)).1.1,
   (stakeCheck_boundary ⟨false⟩ rfl 10 2 0 2 "0xT" [] (by decide) (by decide)).2 5 (by decide)⟩

/-- C3: on a swap-enabled configuration with a covered native spend X,
`depositEth` returns spentAmount X together with the value carried by
the mint-transfer event found in the confirmed receipt (a `Transfer`
emitted by the marketplace contract from the null address to the
caller), and fails with the deposit-failed error when the receipt holds
no such event. -/
theorem depositEth_spec (c : Contracts) (hc : c.isNative = false)
    (user ia : String) (wallet spend recv : Nat) (hb : spend ≤ wallet)
    (tx : String) (events : List LogEvent) :
    (∀ ev a, events.find? (isMintTransferEvent ia user) = some ev →
        ev.args = some a →
        depositEth c user ia wallet spend recv tx events = Except.ok ⟨tx, spend, a.value⟩)
  ∧ ((∀ e ∈ events, isMintTransferEvent ia user e = false) →
        depositEth c user ia wallet spend recv tx events
          = Except.error (SwapError.depositFailed tx)) := by
  have hnb : ¬ (wallet < spend) := by omega
  constructor
  · intro ev a hev hargs
    simp [depositEth, checkSwapEnabled, hc, hnb, hev, hargs]
  · intro hnone
    have hf : events.find? (isMintTransferEvent ia user) = none := by
      rw [List.find?_eq_none]
      intro x hx
      simp [hnone x hx]
    simp [depositEth, checkSwapEnabled, hc, hnb, hf]

/-- Witness for C3 at the scenario of the specification: native spend 7
with a mint-transfer of value 4 in the receipt yields spentAmount 7 and
receivedAmount 4, and the same call on a receipt without the event
fails with the deposit-failed error. -/
theorem depositEth_spec_witness :
    depositEth ⟨false⟩ "0xU" "0xI" 9 7 4 "0xT"
        [⟨some "Transfer", "0xI", some ⟨NULL_ADDRESS, "0xU", 4⟩, none⟩]
      = Except.ok ⟨"0xT", 7, 4⟩
  ∧ depositEth ⟨false⟩ "0xU" "0xI" 9 7 4 "0xT" []
      = Except.error (SwapError.depositFailed "0xT") :=
  ⟨(depositEth_spec ⟨false⟩ rfl "0xU" "0xI" 9 7 4 (by decide) "0xT"
      [⟨some "Transfer", "0xI", some ⟨NULL_ADDRESS, "0xU", 4⟩, none⟩]).1
      ⟨some "Transfer", "0xI", some ⟨NULL_ADDRESS, "0xU", 4⟩, none⟩
      ⟨NULL_ADDRESS, "0xU", 4⟩ (by decide) rfl,
   (depositEth_spec ⟨false⟩ rfl "0xU" "0xI" 9 7 4 (by decide) "0xT" []).2
      (by intro e he; cases he)⟩

/-- C2 counterexample: a confirmed receipt holding the credit transfer
to pool address 0xP and a pool log entry that decodes as a `Swap` event
with amount0Out equal to zero does not raise the withdraw-failed
error: a decoded zero amount is a truthy BigNumber object in the JS
truthiness test, so `withdrawEth` succeeds and reports a received
amount of zero, contrary to the claim that a zero output amount
fails. -/
theorem withdrawEth_zeroOut_counterexample :
    withdrawEth ⟨false⟩ "0xI" "0xR" 10 5 3 "0xT"
        [⟨some "Transfer", "0xR", some ⟨"0xI", "0xP", 5⟩, none⟩,
         ⟨none, "0xP", none, some ⟨"0xI", "0xU", 5, 0, some 0, 3⟩⟩]
      = Except.ok ⟨"0xT", 5, 0⟩
  ∧ findSwapEventValues "0xP"
        [⟨some "Transfer", "0xR", some ⟨"0xI", "0xP", 5⟩, none⟩,
         ⟨none, "0xP", none, some ⟨"0xI", "0xU", 5, 0, some 0, 3⟩⟩]
      = some ⟨"0xI", "0xU", 5, 0, some 0, 3⟩ := by
  constructor <;> rfl

/-- C2 amended: on a swap-enabled configuration with a covered credit
spend, `withdrawEth` raises the withdraw-failed error exactly when the
credit transfer from the marketplace is present but either no log entry
emitted by the transfer destination decodes as the pool `Swap` event or
the decoded amount0Out field is absent; a decoded amount0Out — zero
included — is returned as receivedAmount together with the spent
amount, and a receipt with no credit transfer fails with a JS type
error (reading a property of `undefined`) rather than with the
withdraw-failed error. -/
theorem withdrawEth_spec (c : Contracts) (hc : c.isNative = false)
    (ia ra : String) (stake spend recv : Nat) (hs : spend ≤ stake)
    (tx : String) (events : List LogEvent) :
    (events.find? (isRlcTransferFromIExec ra ia) = none →
        withdrawEth c ia ra stake spend recv tx events = Except.error SwapError.typeError)
  ∧ (∀ tev targs, events.find? (isRlcTransferFromIExec ra ia) = some tev →
        tev.args = some targs →
        ((findSwapEventValues targs.toAddr events = none →
            withdrawEth c ia ra stake spend recv tx events
              = Except.error (SwapError.withdrawFailed tx))
         ∧ (∀ v, findSwapEventValues targs.toAddr events = some v →
              ((v.amount0Out = none →
                  withdrawEth c ia ra stake spend recv tx events
                    = Except.error (SwapError.withdrawFailed tx))
               ∧ (∀ n, v.amount0Out = some n →
                  withdrawEth c ia ra stake spend recv tx events
                    = Except.ok ⟨tx, spend, n⟩))))) := by
  have hnlt : ¬ (stake < spend) := by omega
  refine ⟨fun hnone => ?_,
    fun tev targs htev htargs =>
      ⟨fun hsw => ?_, fun v hv => ⟨fun h0 => ?_, fun n hn => ?_⟩⟩⟩ <;>
    simp [withdrawEth, checkSwapEnabled, hc, hnlt, *]

/-- Witness for the amended C2: the withdraw-failed error on a receipt
whose credit transfer points at pool 0xP but whose pool log entry does
not decode as a `Swap` event, and the JS type error on a receipt with
no credit transfer at all. -/
theorem withdrawEth_spec_witness :
    withdrawEth ⟨false⟩ "0xI" "0xR" 10 5 3 "0xT"
        [⟨some "Transfer", "0xR", some ⟨"0xI", "0xP", 5⟩, none⟩,
         ⟨none, "0xP", none, none⟩]
      = Except.error (SwapError.withdrawFailed "0xT")
  ∧ withdrawEth ⟨false⟩ "0xI" "0xR" 10 5 3 "0xT" [] = Except.error SwapError.typeError :=
  ⟨((withdrawEth_spec ⟨false⟩ rfl "0xI" "0xR" 10 5 3 (by decide) "0xT"
      [⟨some "Transfer", "0xR", some ⟨"0xI", "0xP", 5⟩, none⟩,
       ⟨none, "0xP", none, none⟩]).2
      ⟨some "Transfer", "0xR", some ⟨"0xI", "0xP", 5⟩, none⟩
      ⟨"0xI", "0xP", 5⟩ (by decide) rfl).1 (by decide),
   (withdrawEth_spec ⟨false⟩ rfl "0xI" "0xR" 10 5 3 (by decide) "0xT" []).1 rfl⟩

end IexecSwap
